import Mathlib

/-!
Verification development for the aiolxd client library.

The definitions below are shallow embeddings of the Python source under
`src/aiolxd/`: JSON values are modelled by `AioLXD.JVal`, Python dicts by
association lists, exceptions by `Except` error constructors named after the
raise sites, and the HTTP layer by passing the observed HTTP response (or the
transport call's result) as an explicit argument.
-/

namespace AioLXD

/-- JSON value, as produced by decoding a response body.  Python dicts are
association lists (keys are unique in a decoded JSON object, so first-match
lookup agrees with dict subscripting). -/
inductive JVal where
  | null
  | bool (b : Bool)
  | int (n : Int)
  | str (s : String)
  | arr (elems : List JVal)
  | obj (fields : List (String × JVal))

/-- A decoded JSON object: the Python `Dict[str, Any]` that
`_process_response` receives. -/
abbrev JObj := List (String × JVal)

/-- Dict lookup: `response[k]` / `k in response`.  Returns `none` when the key
is absent (Python raises `KeyError` at subscripting; callers model that). -/
def jget : JObj → String → Option JVal
  | [], _ => none
  | (k, v) :: rest, key => if k = key then some v else jget rest key

/-- Python truthiness of a JSON value (`if not self._operation` tests this on
the stored operation). -/
def JVal.falsy : JVal → Bool
  | .null => true
  | .bool b => !b
  | .int n => n == 0
  | .str s => s == ""
  | .arr elems => elems.isEmpty
  | .obj fields => fields.isEmpty

/-- Python `==` between a JSON value and a string literal (as in
`response["type"] == "sync"`): true exactly when the value is that string. -/
def JVal.isStr (v : JVal) (s : String) : Bool :=
  match v with
  | .str s2 => s2 == s
  | _ => false

/-- The `StatusCode` enum from `entities/response.py` (the misspelling
`OPERTAINON_CREATED` is the source's). -/
inductive StatusCode where
  | opertainonCreated
  | started
  | stopped
  | running
  | canceling
  | pending
  | starting
  | stopping
  | aborting
  | freezing
  | frozen
  | thawed
  | error
  | ready
  | success
  | failure
  | canceled
  | notFound
  deriving Repr, DecidableEq

/-- Integer value of each `StatusCode` member. -/
def StatusCode.value : StatusCode → Int
  | .opertainonCreated => 100
  | .started => 101
  | .stopped => 102
  | .running => 103
  | .canceling => 104
  | .pending => 105
  | .starting => 106
  | .stopping => 107
  | .aborting => 108
  | .freezing => 109
  | .frozen => 110
  | .thawed => 111
  | .error => 112
  | .ready => 113
  | .success => 200
  | .failure => 400
  | .canceled => 401
  | .notFound => 404

/-- The fixed set of enumerated status-code integers. -/
def statusCodeInts : List Int :=
  [100, 101, 102, 103, 104, 105, 106, 107, 108, 109, 110, 111, 112, 113,
   200, 400, 401, 404]

/-- The value→member table the `Enum` machinery builds from the class body of
`StatusCode`, in declaration order. -/
def StatusCode.members : List (Int × StatusCode) :=
  [(100, .opertainonCreated), (101, .started), (102, .stopped),
   (103, .running), (104, .canceling), (105, .pending), (106, .starting),
   (107, .stopping), (108, .aborting), (109, .freezing), (110, .frozen),
   (111, .thawed), (112, .error), (113, .ready), (200, .success),
   (400, .failure), (401, .canceled), (404, .notFound)]

/-- `StatusCode(n)` on an integer: the member with that value, `none` when
the enum constructor raises `ValueError` (integer outside the set). -/
def StatusCode.ofInt? (n : Int) : Option StatusCode :=
  (StatusCode.members.find? (fun p => p.1 == n)).map (fun p => p.2)

/-- `StatusCode(v)` on an arbitrary JSON value: only enumerated integers
succeed; any other value makes the enum constructor raise `ValueError`. -/
def StatusCode.ofJVal : JVal → Option StatusCode
  | .int n => StatusCode.ofInt? n
  | _ => none

/-- The response dataclasses from `entities/response.py`.  The Python
dataclasses perform no runtime type checks, so `status`, `operation` and
`error` store whatever JSON value the envelope carried. -/
inductive BaseResponse where
  | syncResponse (type_ : JVal) (metadata : JVal) (status : JVal)
      (status_code : StatusCode)
  | asyncResponse (type_ : JVal) (metadata : JVal) (status : JVal)
      (status_code : StatusCode) (operation : JVal)
  | errorResponse (type_ : JVal) (metadata : JVal) (error : JVal)
      (error_code : StatusCode)

/-- The `metadata` field shared by all three response dataclasses. -/
def BaseResponse.metadata : BaseResponse → JVal
  | .syncResponse _ md _ _ => md
  | .asyncResponse _ md _ _ _ => md
  | .errorResponse _ md _ _ => md

/-- Failure outcomes of `AbstractTransport._process_response`, one constructor
per raise site: `missingType` is `ValueError("Response has no type")`,
`keyError k` is the `KeyError` from `response[k]`, `invalidStatusCode` is the
`ValueError` raised by `StatusCode(...)`, and `invalidType` is
`ValueError("Invalid response type: ...")`. -/
inductive ProcessError where
  | missingType
  | keyError (key : String)
  | invalidStatusCode (v : JVal)
  | invalidType (t : JVal)

/-- The shared sync/async body of `_process_response`: reads `status`, then
`status_code` (resolved against the enum), then — in the async case —
`operation`, mirroring the evaluation order of the Python block. -/
def processSyncAsync (response : JObj) (t metadata : JVal) (isAsync : Bool) :
    Except ProcessError BaseResponse :=
  match jget response "status" with
  | none => .error (.keyError "status")
  | some status =>
    match jget response "status_code" with
    | none => .error (.keyError "status_code")
    | some sc =>
      match StatusCode.ofJVal sc with
      | none => .error (.invalidStatusCode sc)
      | some code =>
        if isAsync then
          match jget response "operation" with
          | none => .error (.keyError "operation")
          | some op => .ok (.asyncResponse t metadata status code op)
        else
          .ok (.syncResponse t metadata status code)

/-- `AbstractTransport._process_response` from `transport.py`.  Note the
`metadata` subscript happens while building `args`, before any discriminant
branch, so a map without the `metadata` key raises `KeyError` regardless of
the discriminant's value. -/
def processResponse (response : JObj) : Except ProcessError BaseResponse :=
  match jget response "type" with
  | none => .error .missingType
  | some t =>
    match jget response "metadata" with
    | none => .error (.keyError "metadata")
    | some metadata =>
      if t.isStr "sync" || t.isStr "async" then
        processSyncAsync response t metadata (t.isStr "async")
      else if t.isStr "error" then
        match jget response "error" with
        | none => .error (.keyError "error")
        | some err =>
          match jget response "error_code" with
          | none => .error (.keyError "error_code")
          | some ec =>
            match StatusCode.ofJVal ec with
            | none => .error (.invalidStatusCode ec)
            | some code => .ok (.errorResponse t metadata err code)
      else .error (.invalidType t)

/-- The three `except` branches around `response.json()` in
`AsyncTransport.request`: `aiohttp.ContentTypeError`, `aiohttp.ClientError`,
and `json.JSONDecodeError`. -/
inductive JsonFailure where
  | contentTypeNotJson (contentType : String)
  | clientFailure
  | decodeFailed (msg : String)

/-- Failure outcomes of `AsyncTransport.request`: `serverError` is the
`AioLXDResponseError` raised when `response.status >= 500` (the exception's
`status`/`reason` properties expose the response's status and reason),
`jsonFailure` wraps the body-decoding failures, and `processFailed` is a
propagated `_process_response` failure. -/
inductive RequestError where
  | serverError (status : Nat) (reason : String)
  | jsonFailure (f : JsonFailure)
  | processFailed (e : ProcessError)

/-- The observable part of the aiohttp response that `AsyncTransport.request`
inspects after the HTTP call: the status, the reason, and the result of
`await response.json()` (a decoded object, or one of the three decoding
failures).  The HTTP send itself is the external collaborator, so the
response arrives as an argument. -/
structure HttpResponse where
  status : Nat
  reason : String
  jsonBody : Except JsonFailure JObj

/-- The response-handling tail of `AsyncTransport.request` (`transport.py`
lines 213-230): the `>= 500` guard runs first, then the body is decoded,
then the decoded object goes through `_process_response`. -/
def AsyncTransport.request (resp : HttpResponse) :
    Except RequestError BaseResponse :=
  if resp.status ≥ 500 then
    .error (.serverError resp.status resp.reason)
  else
    match resp.jsonBody with
    | .error f => .error (.jsonFailure f)
    | .ok obj =>
      match processResponse obj with
      | .ok r => .ok r
      | .error e => .error (.processFailed e)

/-- `RawLXDCaller` from `raw.py`, reduced to the state that path composition
and equality read: `_path`.  The `_session` and `_kwargs` fields are carried
along unchanged by `_construct` and play no part in the path algebra. -/
structure RawLXDCaller where
  path : String

/-- `RawLXDCaller.slash`: with a segment it appends `"/" + segment`, with
`None` it appends a bare `"/"`; either way a new object is constructed via
`_construct`, the receiver is untouched. -/
def RawLXDCaller.slash (c : RawLXDCaller) (p : Option String) : RawLXDCaller :=
  match p with
  | none => ⟨c.path ++ "/"⟩
  | some s => ⟨c.path ++ "/" ++ s⟩

/-- `RawLXDCaller.__str__`: the rendered path is `_path` itself. -/
def RawLXDCaller.render (c : RawLXDCaller) : String :=
  c.path

/-- `RawLXDCaller.__eq__`: `isinstance` check then `_path` comparison (both
arguments here are already `RawLXDCaller`s). -/
def RawLXDCaller.eq (a b : RawLXDCaller) : Bool :=
  a.path == b.path

/-- Modelled from the Python data model: a class that defines `__eq__` without
defining `__hash__` has its `__hash__` slot set to `None`, making instances
unhashable.  `raw.py` defines `__eq__` and no `__hash__`, so `RawLXDCaller`
carries no hash function. -/
def RawLXDCaller.hashSlot : Option (RawLXDCaller → Nat) :=
  none

/-- `TransportProxyCaller` from `transport.py`, reduced to the `path` it
composes (the `parent` transport is threaded through unchanged). -/
structure TransportProxyCaller where
  path : String

/-- `TransportProxyCaller.slash`: builds a new proxy whose path is
`f"{self.path}/{name}"`. -/
def TransportProxyCaller.slash (c : TransportProxyCaller) (name : String) :
    TransportProxyCaller :=
  ⟨c.path ++ "/" ++ name⟩

/-- `InstanceSchema` from `entities/instance.py`: a pydantic model with the
single required field `architecture: str`. -/
structure InstanceSchema where
  architecture : String
  deriving Repr, DecidableEq

/-- Pydantic v1 coercion for a plain `str` field: strings pass through,
numbers (and `bool`, a subclass of `int`) are stringified, anything else
fails with "str type expected". -/
def strCoerce : JVal → Option String
  | .str s => some s
  | .int n => some (toString n)
  | .bool b => some (if b then "True" else "False")
  | _ => none

/-- Schema-validation failures (`pydantic.ValidationError`, re-raised by the
entity as `AioLXDValidationError`). -/
inductive ValidationFailure where
  | missingField (field : String)
  | invalidField (field : String)

/-- `InstanceSchema(**object)`: `architecture` is required and must coerce to
`str`; extra keys are ignored (pydantic v1 default). -/
def validateInstance (fields : JObj) : Except ValidationFailure InstanceSchema :=
  match jget fields "architecture" with
  | none => .error (.missingField "architecture")
  | some v =>
    match strCoerce v with
    | none => .error (.invalidField "architecture")
    | some s => .ok ⟨s⟩

/-- Failure outcomes of the lazy-entity operations, one constructor per raise
site: `validation` is the `AioLXDValidationError` from `fill`,
`operationNotSet` is `RuntimeError("Operation not set")`, `invalidResponse`
is `RuntimeError("Invalid response")` on non-dict metadata, `notAMapping` is
the `TypeError` Python raises when `**` is applied to a non-mapping,
`objectNotFetched` is `RuntimeError("Object not fetched")` from
`__getattr__`, `attributeFailure` is the `AttributeError` for an unknown
schema field, and `transportFailed` is a propagated `transport.get` failure. -/
inductive EntityError where
  | validation (e : ValidationFailure)
  | operationNotSet
  | invalidResponse
  | notAMapping
  | objectNotFetched
  | attributeFailure (name : String)
  | transportFailed (e : RequestError)

/-- The mutable state of a `LazyEntity` (`entities/abc.py`), instantiated at
the repository's only schema, `InstanceSchema` — `InstanceEntity`
(`entities/instance.py`) duplicates the identical logic with `_object` in
place of `_data`.  `_operation` stores whatever value the constructor
received, unchecked, and `_data` holds the validated record once resolved.
The transport handle is threaded separately (the entity never reads it except
to issue `get`). -/
structure LazyEntity where
  operation : Option JVal
  data : Option InstanceSchema

/-- `LazyEntity.fill`: validates the dict against the schema and assigns
`_data` only after validation succeeds; a `ValidationError` propagates with
no assignment made. -/
def LazyEntity.fill (s : LazyEntity) (object : JObj) :
    Except EntityError LazyEntity :=
  match validateInstance object with
  | .ok d => .ok { s with data := some d }
  | .error e => .error (.validation e)

/-- `LazyEntity.fill` called with an arbitrary value (as `LXD.instances` does
with each metadata item): `**object` on a non-mapping raises `TypeError`. -/
def LazyEntity.fillValue (s : LazyEntity) (v : JVal) :
    Except EntityError LazyEntity :=
  match v with
  | .obj fields => s.fill fields
  | _ => .error .notAMapping

/-- `LazyEntity.__init__`: stores the operation as given, starts with
`_data = None`, and runs `fill` when a data dict was supplied. -/
def LazyEntity.init (operation : Option JVal) (data : Option JObj) :
    Except EntityError LazyEntity :=
  match data with
  | none => .ok { operation := operation, data := none }
  | some obj => LazyEntity.fill { operation := operation, data := none } obj

/-- Python truthiness test `not self._operation`: true when no operation is
stored or the stored value is falsy (`None`, `""`, `0`, empty containers). -/
def operationFalsy : Option JVal → Bool
  | none => true
  | some v => v.falsy

/-- `LazyEntity.update`: refuses a falsy operation reference, issues
`transport.get(self._operation)` (whose outcome arrives as `getResult`),
requires dict metadata, then `fill`s.  Every failure propagates before the
`_data` assignment inside `fill`. -/
def LazyEntity.update (s : LazyEntity)
    (getResult : Except RequestError BaseResponse) :
    Except EntityError LazyEntity :=
  if operationFalsy s.operation then
    .error .operationNotSet
  else
    match getResult with
    | .error e => .error (.transportFailed e)
    | .ok resp =>
      match resp.metadata with
      | .obj fields => s.fill fields
      | _ => .error .invalidResponse

/-- `LazyEntity.fetch`: a no-op when `_data` is already set, otherwise
`update`. -/
def LazyEntity.fetch (s : LazyEntity)
    (getResult : Except RequestError BaseResponse) :
    Except EntityError LazyEntity :=
  if s.data.isSome then .ok s else s.update getResult

/-- The `data` property: a plain read of `_data`.  Being a class-level
property it is found by normal attribute lookup, so `__getattr__` (and its
error) is never involved. -/
def LazyEntity.dataProp (s : LazyEntity) : Option InstanceSchema :=
  s.data

/-- The `operation` property: a plain read of `_operation`. -/
def LazyEntity.operationProp (s : LazyEntity) : Option JVal :=
  s.operation

/-- The `is_fetched` property: `self._data is not None`. -/
def LazyEntity.isFetched (s : LazyEntity) : Bool :=
  s.data.isSome

/-- Attribute read on the underlying schema record: pydantic model instances
expose their fields as attributes. -/
def schemaGetattr (d : InstanceSchema) (name : String) :
    Except EntityError JVal :=
  if name = "architecture" then .ok (.str d.architecture)
  else .error (.attributeFailure name)

/-- `LazyEntity.__getattr__`: raises `RuntimeError("Object not fetched")`
when `_data` is `None`, otherwise delegates to the record's attribute. -/
def LazyEntity.getattrField (s : LazyEntity) (name : String) :
    Except EntityError JVal :=
  match s.data with
  | none => .error .objectNotFetched
  | some d => schemaGetattr d name

/-- The entity state resulting from a call that may raise: on success the new
state, on an exception the state the entity already had (the Python methods
mutate `_data` only at the single assignment inside `fill`, which runs after
validation succeeds). -/
def stateAfter (old : LazyEntity) (r : Except EntityError LazyEntity) :
    LazyEntity :=
  match r with
  | .ok s => s
  | .error _ => old

/-- `LXD.instances` from `lxd.py`, with the transport call's classified
response passed in: requires list metadata; with recursion it builds empty
entities and `fill`s each from the corresponding item (first failure
propagates), without recursion it wraps every item as an unresolved entity
whose operation is that item. -/
def LXD.instances (resp : BaseResponse) (recursion : Bool) :
    Except EntityError (List LazyEntity) :=
  match resp.metadata with
  | .arr items =>
    if recursion then
      items.mapM (fun item =>
        LazyEntity.fillValue { operation := none, data := none } item)
    else
      .ok (items.map (fun item => { operation := some item, data := none }))
  | _ => .error .invalidResponse

/-- The spec's wording of the LazyEntity state invariant (§3): exactly one of
`Unresolved{operation}` / `Resolved{data}` is set — never both, never
neither.  Stated over the embedded entity's two fields for comparison with
what the code maintains. -/
def specExactlyOneState (s : LazyEntity) : Bool :=
  (s.operation.isSome && !s.data.isSome) || (!s.operation.isSome && s.data.isSome)

/-! ## Helper lemmas -/

/-- The fixed integer set is exactly the first projection of the member
table. -/
lemma statusCodeInts_eq_map :
    StatusCode.members.map Prod.fst = statusCodeInts := by
  decide

/-- The enum constructor succeeds exactly on the fixed set of integers. -/
lemma StatusCode.ofInt_isSome (n : Int) :
    (StatusCode.ofInt? n).isSome = true ↔ n ∈ statusCodeInts := by
  rw [← statusCodeInts_eq_map]
  simp [StatusCode.ofInt?, List.find?_isSome, List.mem_map, beq_iff_eq]

/-- Every member of the table carries its own integer value. -/
lemma StatusCode.members_value :
    ∀ p ∈ StatusCode.members, StatusCode.value p.2 = p.1 := by
  decide

/-- A successfully resolved status code carries the integer it was resolved
from. -/
lemma StatusCode.ofInt_value {n : Int} {c : StatusCode}
    (h : StatusCode.ofInt? n = some c) : StatusCode.value c = n := by
  unfold StatusCode.ofInt? at h
  rcases Option.map_eq_some'.mp h with ⟨p, hf, hc⟩
  have h1 : p.1 = n := by
    have := List.find?_some hf
    simpa [beq_iff_eq] using this
  have h2 := StatusCode.members_value p (List.mem_of_find?_eq_some hf)
  rw [← hc, h2, h1]

/-- Integers outside the fixed set make the enum constructor fail. -/
lemma StatusCode.ofInt_eq_none {n : Int} (h : n ∉ statusCodeInts) :
    StatusCode.ofInt? n = none := by
  have h2 : ¬ (StatusCode.ofInt? n).isSome = true :=
    fun hs => h ((StatusCode.ofInt_isSome n).mp hs)
  exact Option.not_isSome_iff_eq_none.mp (by simpa using h2)

/-- Characterization of `_process_response` on an envelope whose discriminant
is `"sync"` and whose `metadata`, `status` and `status_code` keys are all
present: the outcome is decided by resolving `status_code` against the
enum. -/
lemma processResponse_sync_char (env : JObj) (md st sc : JVal)
    (ht : jget env "type" = some (JVal.str "sync"))
    (hm : jget env "metadata" = some md)
    (hs : jget env "status" = some st)
    (hc : jget env "status_code" = some sc) :
    processResponse env =
      match StatusCode.ofJVal sc with
      | none => .error (.invalidStatusCode sc)
      | some code => .ok (.syncResponse (JVal.str "sync") md st code) := by
  unfold processResponse processSyncAsync
  rw [ht, hm]
  simp only [JVal.isStr]
  rw [hs, hc]
  simp

/-- A JSON value fails the comparison with a string literal exactly when it
is not that string. -/
lemma JVal.isStr_eq_false_iff (v : JVal) (s : String) :
    v.isStr s = false ↔ v ≠ JVal.str s := by
  cases v <;> simp [JVal.isStr]

/-- `_process_response` with no `"type"` key: the first check fires. -/
lemma processResponse_type_missing (env : JObj)
    (ht : jget env "type" = none) :
    processResponse env = .error .missingType := by
  unfold processResponse
  rw [ht]

/-- `_process_response` with a discriminant but no `"metadata"` key: building
`args` subscripts `response["metadata"]` before any branch, so `KeyError`
fires whatever the discriminant is. -/
lemma processResponse_metadata_missing (env : JObj) (t : JVal)
    (ht : jget env "type" = some t)
    (hm : jget env "metadata" = none) :
    processResponse env = .error (.keyError "metadata") := by
  unfold processResponse
  rw [ht, hm]

/-- `_process_response` with `metadata` present and a discriminant that is
none of `"sync"`, `"async"`, `"error"`: the final `ValueError` fires. -/
lemma processResponse_unknown_type (env : JObj) (t md : JVal)
    (ht : jget env "type" = some t)
    (hm : jget env "metadata" = some md)
    (h1 : t ≠ JVal.str "sync") (h2 : t ≠ JVal.str "async")
    (h3 : t ≠ JVal.str "error") :
    processResponse env = .error (.invalidType t) := by
  unfold processResponse
  rw [ht, hm]
  simp [(JVal.isStr_eq_false_iff t "sync").mpr h1,
    (JVal.isStr_eq_false_iff t "async").mpr h2,
    (JVal.isStr_eq_false_iff t "error").mpr h3]

/-! ## Claim theorems -/

/-- C1 (counterexample): the envelope `{"type": "sync", "status": "Success",
"status_code": 200}` satisfies the claim's description of a valid sync
envelope (discriminant `"sync"`, string status, enumerated integer
status code), yet classification does not return a variant: it raises the
`KeyError` for the absent `metadata` key. -/
theorem c1_counterexample :
    processResponse
        [("type", JVal.str "sync"), ("status", JVal.str "Success"),
         ("status_code", JVal.int 200)]
      = .error (.keyError "metadata")
    ∧ Except.isOk (processResponse
        [("type", JVal.str "sync"), ("status", JVal.str "Success"),
         ("status_code", JVal.int 200)]) = false :=
  ⟨rfl, rfl⟩

/-- C1 (amended): for every sync envelope whose `status`, `status_code`
(an integer) and `metadata` keys are present, classification returns the
sync variant whose status code is the enum member mapped from the integer;
an integer outside the fixed set fails with the status-code `ValueError`;
and the enum resolves exactly the integers of the fixed set. -/
theorem c1_sync_classification (env : JObj) (st : String) (n : Int)
    (md : JVal)
    (ht : jget env "type" = some (JVal.str "sync"))
    (hs : jget env "status" = some (JVal.str st))
    (hc : jget env "status_code" = some (JVal.int n))
    (hm : jget env "metadata" = some md) :
    (∀ c, StatusCode.ofInt? n = some c →
      processResponse env
          = .ok (.syncResponse (JVal.str "sync") md (JVal.str st) c)
        ∧ StatusCode.value c = n)
    ∧ (n ∉ statusCodeInts →
        processResponse env = .error (.invalidStatusCode (JVal.int n)))
    ∧ ((StatusCode.ofInt? n).isSome = true ↔ n ∈ statusCodeInts) := by
  have hchar :=
    processResponse_sync_char env md (JVal.str st) (JVal.int n) ht hm hs hc
  refine ⟨?_, ?_, StatusCode.ofInt_isSome n⟩
  · intro c hcode
    have hj : StatusCode.ofJVal (JVal.int n) = some c := by
      simpa [StatusCode.ofJVal] using hcode
    rw [hchar, hj]
    exact ⟨rfl, StatusCode.ofInt_value hcode⟩
  · intro hnot
    have hj : StatusCode.ofJVal (JVal.int n) = none := by
      simpa [StatusCode.ofJVal] using StatusCode.ofInt_eq_none hnot
    rw [hchar, hj]

/-- C1 (witness): the amended theorem applied to the concrete envelope
`{"type": "sync", "status": "Success", "status_code": 200,
"metadata": null}`. -/
theorem c1_sync_classification_witness :
    processResponse
        [("type", JVal.str "sync"), ("status", JVal.str "Success"),
         ("status_code", JVal.int 200), ("metadata", JVal.null)]
      = .ok (.syncResponse (JVal.str "sync") JVal.null (JVal.str "Success")
          .success)
    ∧ StatusCode.value .success = 200 :=
  (c1_sync_classification
      [("type", JVal.str "sync"), ("status", JVal.str "Success"),
       ("status_code", JVal.int 200), ("metadata", JVal.null)]
      "Success" 200 JVal.null rfl rfl rfl rfl).1 .success rfl

/-- C2 (counterexample): the map `{"type": "weird"}` has a discriminant that
is neither `"sync"`, `"async"` nor `"error"`, yet classification fails with
the `KeyError` for the absent `metadata` key, not with the unknown-variant
`ValueError`. -/
theorem c2_counterexample :
    processResponse [("type", JVal.str "weird")]
      = .error (.keyError "metadata")
    ∧ processResponse [("type", JVal.str "weird")]
        ≠ .error (.invalidType (JVal.str "weird")) := by
  refine ⟨rfl, ?_⟩
  intro h
  injection h with h2
  injection h2

/-- C2 (amended): a map with no `"type"` key fails with the
missing-discriminant `ValueError`; a map with a discriminant but no
`"metadata"` key fails with the `KeyError` for `metadata` whatever the
discriminant is; and when `metadata` is present, any discriminant other than
`"sync"`, `"async"` or `"error"` fails with the unknown-variant
`ValueError`. -/
theorem c2_discriminant_errors :
    (∀ env : JObj, jget env "type" = none →
      processResponse env = .error .missingType)
    ∧ (∀ (env : JObj) (t : JVal), jget env "type" = some t →
        jget env "metadata" = none →
        processResponse env = .error (.keyError "metadata"))
    ∧ (∀ (env : JObj) (t md : JVal), jget env "type" = some t →
        jget env "metadata" = some md →
        t ≠ JVal.str "sync" → t ≠ JVal.str "async" → t ≠ JVal.str "error" →
        processResponse env = .error (.invalidType t)) :=
  ⟨processResponse_type_missing, processResponse_metadata_missing,
   processResponse_unknown_type⟩

/-- C2 (witness): the amended theorem applied to the empty map and to
`{"type": "weird", "metadata": null}`. -/
theorem c2_discriminant_errors_witness :
    processResponse [] = .error .missingType
    ∧ processResponse [("type", JVal.str "weird"), ("metadata", JVal.null)]
        = .error (.invalidType (JVal.str "weird")) :=
  ⟨c2_discriminant_errors.1 [] rfl,
   c2_discriminant_errors.2.2 _ (JVal.str "weird") JVal.null rfl rfl
     ((JVal.isStr_eq_false_iff _ _).mp rfl)
     ((JVal.isStr_eq_false_iff _ _).mp rfl)
     ((JVal.isStr_eq_false_iff _ _).mp rfl)⟩

/-- C8 (counterexample): the sync envelope `{"type": "sync", "status": "OK",
"status_code": 112}` carries both required fields but no `metadata` key, and
classification does not succeed: it raises the `KeyError` for `metadata`. -/
theorem c8_counterexample :
    processResponse
        [("type", JVal.str "sync"), ("status", JVal.str "OK"),
         ("status_code", JVal.int 112)]
      = .error (.keyError "metadata")
    ∧ Except.isOk (processResponse
        [("type", JVal.str "sync"), ("status", JVal.str "OK"),
         ("status_code", JVal.int 112)]) = false :=
  ⟨rfl, rfl⟩

/-- C8 (amended): classification of a sync envelope succeeds with the
`metadata` key present and bound to any value (object, array, or null —
the stored value is passed through unchecked); when the `metadata` key is
absent, classification fails with the `KeyError` for `metadata` instead of
succeeding. -/
theorem c8_metadata_handling :
    (∀ (env : JObj) (st sc md : JVal) (c : StatusCode),
      jget env "type" = some (JVal.str "sync") →
      jget env "status" = some st →
      jget env "status_code" = some sc →
      StatusCode.ofJVal sc = some c →
      jget env "metadata" = some md →
      processResponse env = .ok (.syncResponse (JVal.str "sync") md st c))
    ∧ (∀ (env : JObj) (t : JVal), jget env "type" = some t →
        jget env "metadata" = none →
        processResponse env = .error (.keyError "metadata")) := by
  constructor
  · intro env st sc md c ht hs hc hcode hm
    rw [processResponse_sync_char env md st sc ht hm hs hc, hcode]
  · exact processResponse_metadata_missing

/-- C8 (witness): the amended theorem applied to a sync envelope whose
metadata is the array `["x"]`. -/
theorem c8_metadata_handling_witness :
    processResponse
        [("type", JVal.str "sync"), ("status", JVal.str "OK"),
         ("status_code", JVal.int 112),
         ("metadata", JVal.arr [JVal.str "x"])]
      = .ok (.syncResponse (JVal.str "sync") (JVal.arr [JVal.str "x"])
          (JVal.str "OK") .error) :=
  c8_metadata_handling.1 _ (JVal.str "OK") (JVal.int 112)
    (JVal.arr [JVal.str "x"]) .error rfl rfl rfl rfl rfl

/-- A successful `fill` keeps the operation reference unchanged and leaves
`_data` set. -/
lemma LazyEntity.fill_ok {s : LazyEntity} {obj : JObj} {s' : LazyEntity}
    (h : s.fill obj = .ok s') :
    s'.operation = s.operation ∧ s'.data.isSome = true := by
  unfold LazyEntity.fill at h
  split at h
  · injection h with h2
    subst h2
    exact ⟨rfl, rfl⟩
  · exact Except.noConfusion h

/-- A successful `update` keeps the operation reference unchanged and leaves
`_data` set. -/
lemma LazyEntity.update_ok {s : LazyEntity}
    {g : Except RequestError BaseResponse} {s' : LazyEntity}
    (h : s.update g = .ok s') :
    s'.operation = s.operation ∧ s'.data.isSome = true := by
  unfold LazyEntity.update at h
  split at h
  · exact Except.noConfusion h
  · split at h
    · exact Except.noConfusion h
    · split at h
      · exact LazyEntity.fill_ok h
      · exact Except.noConfusion h

/-- C5: any HTTP response with status at least 500 makes `request` fail with
the server-error exception carrying that status and reason, and the outcome
does not depend on the response body at all — in particular the body is
never JSON-decoded (replacing it by any other value, decodable or not,
gives the same failure). -/
theorem c5_server_error (resp : HttpResponse) (h : 500 ≤ resp.status) :
    AsyncTransport.request resp
      = .error (.serverError resp.status resp.reason)
    ∧ ∀ b : Except JsonFailure JObj,
        AsyncTransport.request { resp with jsonBody := b }
          = .error (.serverError resp.status resp.reason) := by
  constructor
  · unfold AsyncTransport.request
    rw [if_pos h]
  · intro b
    unfold AsyncTransport.request
    rw [if_pos (show 500 ≤ resp.status from h)]

/-- C5 (witness): a 503 response whose body is not even decodable JSON still
fails with `ServerError{status: 503}`. -/
theorem c5_server_error_witness :
    AsyncTransport.request
        ⟨503, "Service Unavailable", .error (.decodeFailed "not json")⟩
      = .error (.serverError 503 "Service Unavailable") :=
  (c5_server_error
    ⟨503, "Service Unavailable", .error (.decodeFailed "not json")⟩
    (by decide)).1

/-- C6: appending two segments renders as the base rendering followed by
`"/" + a + "/" + b`, for both path-composing classes (`RawLXDCaller.slash`
and `TransportProxyCaller.slash`); each `slash` builds a fresh value from
the receiver's path, so the receiver is never mutated (both are pure
constructions). -/
theorem c6_child_composition (c : RawLXDCaller) (d : TransportProxyCaller)
    (a b : String) :
    ((c.slash (some a)).slash (some b)).render
        = c.render ++ "/" ++ a ++ "/" ++ b
    ∧ ((d.slash a).slash b).path = d.path ++ "/" ++ a ++ "/" ++ b
    ∧ c.slash (some a) = ⟨c.path ++ "/" ++ a⟩ :=
  ⟨rfl, rfl, rfl⟩

/-- C9 (counterexample): `RawLXDCaller` defines `__eq__` but no `__hash__`,
so Python sets the class's `__hash__` slot to `None` and instances are not
hashable — there is no hash function to agree with the rendered string. -/
theorem c9_counterexample : RawLXDCaller.hashSlot.isSome = false :=
  rfl

/-- C9 (amended): equality of paths is exactly comparison of their rendered
strings, but paths are not hashable: defining `__eq__` without `__hash__`
leaves the class with no hash function. -/
theorem c9_eq_by_render :
    (∀ a b : RawLXDCaller, RawLXDCaller.eq a b = (a.render == b.render))
    ∧ RawLXDCaller.hashSlot = none :=
  ⟨fun _ _ => rfl, rfl⟩

/-- C3 (counterexample): the docstring's own flow — construct with an
operation reference, then resolve — leaves an entity whose operation AND
data are both set, and constructing with neither argument leaves an entity
with neither set; the "exactly one of the two states" invariant fails in
both directions. -/
theorem c3_counterexample :
    LazyEntity.update
        { operation := some (JVal.str "/1.0/operations/1234"), data := none }
        (.ok (.syncResponse (JVal.str "sync")
          (JVal.obj [("architecture", JVal.str "x86_64")])
          (JVal.str "Success") .success))
      = .ok { operation := some (JVal.str "/1.0/operations/1234"),
              data := some { architecture := "x86_64" } }
    ∧ specExactlyOneState
        { operation := some (JVal.str "/1.0/operations/1234"),
          data := some { architecture := "x86_64" } } = false
    ∧ LazyEntity.init none none = .ok { operation := none, data := none }
    ∧ specExactlyOneState { operation := none, data := none } = false :=
  ⟨rfl, rfl, rfl, rfl⟩

/-- C3 (amended): resolution state is tracked solely by whether `_data` is
set: construction without data leaves `_data` unset, construction with data
(and `fill`/`update` on success) sets `_data`, and all of them leave the
stored operation reference untouched — so operation and data may be set
simultaneously, or neither may be set.  `fetch` additionally leaves an
already-resolved entity entirely unchanged. -/
theorem c3_state_classification :
    (∀ op : Option JVal,
      LazyEntity.init op none = .ok { operation := op, data := none })
    ∧ (∀ (op : Option JVal) (obj : JObj) (s' : LazyEntity),
        LazyEntity.init op (some obj) = .ok s' →
        s'.operation = op ∧ s'.data.isSome = true)
    ∧ (∀ (s : LazyEntity) (obj : JObj) (s' : LazyEntity),
        s.fill obj = .ok s' →
        s'.operation = s.operation ∧ s'.data.isSome = true)
    ∧ (∀ (s : LazyEntity) (g : Except RequestError BaseResponse)
        (s' : LazyEntity),
        s.update g = .ok s' →
        s'.operation = s.operation ∧ s'.data.isSome = true)
    ∧ (∀ (s : LazyEntity) (g : Except RequestError BaseResponse)
        (s' : LazyEntity),
        s.fetch g = .ok s' →
        s'.operation = s.operation
        ∧ (s.data.isSome = true → s' = s)
        ∧ (s.data = none → s'.data.isSome = true)) := by
  refine ⟨fun op => rfl, ?_, ?_, ?_, ?_⟩
  · intro op obj s' h
    exact LazyEntity.fill_ok h
  · intro s obj s' h
    exact LazyEntity.fill_ok h
  · intro s g s' h
    exact LazyEntity.update_ok h
  · intro s g s' h
    unfold LazyEntity.fetch at h
    split at h
    · injection h with h2
      subst h2
      refine ⟨rfl, fun _ => rfl, fun hd => ?_⟩
      simp_all
    · rcases LazyEntity.update_ok h with ⟨h1, h2⟩
      refine ⟨h1, fun hs => ?_, fun _ => h2⟩
      simp_all

/-- C3 (witness): the amended theorem's construction-with-data clause applied
to a concrete operation reference and data dict. -/
theorem c3_state_classification_witness :
    ({ operation := some (JVal.str "/1.0/instances/a"),
       data := some { architecture := "x86_64" } } : LazyEntity).operation
        = some (JVal.str "/1.0/instances/a")
    ∧ ({ operation := some (JVal.str "/1.0/instances/a"),
         data := some { architecture := "x86_64" } } : LazyEntity).data.isSome
        = true :=
  c3_state_classification.2.1 (some (JVal.str "/1.0/instances/a"))
    [("architecture", JVal.str "x86_64")]
    { operation := some (JVal.str "/1.0/instances/a"),
      data := some { architecture := "x86_64" } } rfl

/-- C4: whenever `fill`, `update` or `fetch` fails — operation reference
missing, transport failure, non-dict metadata, or schema validation failure —
the entity's state after the call is exactly the state before it: the single
`_data` assignment sits behind successful validation, so no partial data is
ever applied. -/
theorem c4_failure_atomicity :
    (∀ (s : LazyEntity) (obj : JObj) (e : EntityError),
      s.fill obj = .error e → stateAfter s (s.fill obj) = s)
    ∧ (∀ (s : LazyEntity) (g : Except RequestError BaseResponse)
        (e : EntityError),
      s.update g = .error e → stateAfter s (s.update g) = s)
    ∧ (∀ (s : LazyEntity) (g : Except RequestError BaseResponse)
        (e : EntityError),
      s.fetch g = .error e → stateAfter s (s.fetch g) = s) := by
  refine ⟨?_, ?_, ?_⟩ <;>
    (intro s x e h; simp [stateAfter, h])

/-- C4 (witness): an `update` that fails because the response metadata is an
array leaves the concrete unresolved entity exactly as it was. -/
theorem c4_failure_atomicity_witness :
    stateAfter
        { operation := some (JVal.str "/1.0/instances/a"), data := none }
        (LazyEntity.update
          { operation := some (JVal.str "/1.0/instances/a"), data := none }
          (.ok (.syncResponse (JVal.str "sync") (JVal.arr [])
            (JVal.str "Success") .success)))
      = { operation := some (JVal.str "/1.0/instances/a"), data := none } :=
  c4_failure_atomicity.2.1
    { operation := some (JVal.str "/1.0/instances/a"), data := none }
    (.ok (.syncResponse (JVal.str "sync") (JVal.arr [])
      (JVal.str "Success") .success))
    .invalidResponse rfl

/-- C7: a listing response whose metadata is a list of reference strings,
consumed with recursion disabled, yields exactly one entity per string, in
source order, each unresolved (`_data` unset) with the source string as its
operation reference. -/
theorem c7_listing_unresolved (resp : BaseResponse) (ops : List String)
    (h : resp.metadata = JVal.arr (ops.map JVal.str)) :
    LXD.instances resp false
      = .ok (ops.map fun s =>
          { operation := some (JVal.str s), data := none }) := by
  unfold LXD.instances
  rw [h]
  simp [List.map_map, Function.comp]

/-- C7 (witness): the spec's scenario — metadata
`["/1.0/instances/a", "/1.0/instances/b"]` with recursion disabled yields two
unresolved entities carrying those references in order. -/
theorem c7_listing_unresolved_witness :
    LXD.instances
        (.syncResponse (JVal.str "sync")
          (JVal.arr [JVal.str "/1.0/instances/a", JVal.str "/1.0/instances/b"])
          (JVal.str "Success") .success) false
      = .ok [{ operation := some (JVal.str "/1.0/instances/a"), data := none },
             { operation := some (JVal.str "/1.0/instances/b"), data := none }] :=
  c7_listing_unresolved _ ["/1.0/instances/a", "/1.0/instances/b"] rfl

/-- C10: on an unresolved entity the `data`, `operation` and `is_fetched`
accessors are plain property reads — `data` yields the absent value,
`operation` the stored reference, `is_fetched` false — and only `__getattr__`
(schema-field access) fails with the not-fetched error. -/
theorem c10_unresolved_accessors (s : LazyEntity) (h : s.data = none) :
    LazyEntity.dataProp s = none
    ∧ LazyEntity.operationProp s = s.operation
    ∧ LazyEntity.isFetched s = false
    ∧ ∀ name : String,
        LazyEntity.getattrField s name = .error .objectNotFetched := by
  refine ⟨h, rfl, by simp [LazyEntity.isFetched, h], fun name => ?_⟩
  unfold LazyEntity.getattrField
  rw [h]

/-- C10 (witness): the theorem applied to a concrete unresolved entity and
the schema field `architecture`. -/
theorem c10_unresolved_accessors_witness :
    LazyEntity.dataProp
        { operation := some (JVal.str "/1.0/instances/a"), data := none }
      = none
    ∧ LazyEntity.isFetched
        { operation := some (JVal.str "/1.0/instances/a"), data := none }
      = false
    ∧ LazyEntity.getattrField
        { operation := some (JVal.str "/1.0/instances/a"), data := none }
        "architecture"
      = .error .objectNotFetched :=
  ⟨(c10_unresolved_accessors
      { operation := some (JVal.str "/1.0/instances/a"), data := none }
      rfl).1,
   (c10_unresolved_accessors
      { operation := some (JVal.str "/1.0/instances/a"), data := none }
      rfl).2.2.1,
   (c10_unresolved_accessors
      { operation := some (JVal.str "/1.0/instances/a"), data := none }
      rfl).2.2.2 "architecture"⟩

end AioLXD

